import Mathlib

/-!
Verification development for the TaskFlow Pro backend
(`src/backend/server.py`), a FastAPI task-management service backed by a
Mongo-style document store.

Shallow embedding conventions:
* Calendar dates are modelled as `Nat` day indices (days since some epoch);
  `d1 < d2` mirrors the Python `date` comparison `d1 < d2`.
* Instants (`datetime.now(timezone.utc)`) are `Nat` values; token lifetime
  arithmetic is carried out in minutes, matching `timedelta(minutes=...)`.
* A stored `due_date` value is either an ISO-format calendar-date string or a
  `date` object; both are represented by the day index they denote
  (`DueDateVal.isoStr d` stands for the ISO string of day `d`, and
  `datetime.fromisoformat` applied to it recovers `d`;
  `DueDateVal.dateObj d` stands for the `date` object of day `d`).
  A record where the key is absent or holds `None`/null is `none` — both are
  falsy in the Python truthiness tests the source uses.
* External collaborators (MongoDB, bcrypt, uuid, the HTTP layer) are modelled
  as explicit inputs: the store is a Lean list of records, generated ids and
  hashed passwords are function arguments, and the current time is a
  parameter.
-/

namespace TaskFlow

/-- A stored `due_date` value: the ISO-date string of day `d`, or a `date`
object for day `d` (records written by `create_task` and `update_task` always
store the ISO string form). -/
inductive DueDateVal where
  | isoStr (d : Nat)
  | dateObj (d : Nat)
deriving DecidableEq, Repr

/-- The calendar day denoted by a stored due-date value; for the string form
this is `datetime.fromisoformat(task["due_date"]).date()` (lines 154-157 of
`server.py`), for a date object it is the object itself. -/
def dueDateDay : DueDateVal → Nat
  | .isoStr d => d
  | .dateObj d => d

/-- A task document as stored in the `tasks` collection and manipulated by
`prepare_task_for_response`. Keys that may be absent in legacy documents are
`Option`-valued (`none` = key absent or null): `due_date`, `priority`,
`category` are backfilled by `setdefault`, `completed` is read with
`task.get("completed", False)`, and `is_overdue` is only ever present on
documents that already passed through the normalizer. -/
structure TaskRec where
  id : String
  title : String
  description : Option String
  due_date : Option DueDateVal
  priority : Option String
  category : Option String
  completed : Option Bool
  is_overdue : Option Bool
  user_id : String
  created_at : Nat
  updated_at : Nat
deriving DecidableEq, Repr

/-- Embedding of `prepare_task_for_response` (`server.py` lines 144-166),
parametrised by the current calendar day (`date.today()`): backfill
`due_date`/`priority`/`category` defaults, compute `is_overdue`, and convert a
`date`-object due date to its ISO string form. -/
def prepare_task_for_response (today : Nat) (task : TaskRec) : TaskRec :=
  let due_date := task.due_date
  let priority := some (task.priority.getD "medium")
  let category := some (task.category.getD "General")
  let is_overdue :=
    match due_date with
    | none => false
    | some dv => !(task.completed.getD false) && decide (dueDateDay dv < today)
  let due_date2 :=
    match due_date with
    | some (DueDateVal.dateObj d) => some (DueDateVal.isoStr d)
    | other => other
  { id := task.id, title := task.title, description := task.description,
    due_date := due_date2, priority := priority, category := category,
    completed := task.completed, is_overdue := some is_overdue,
    user_id := task.user_id, created_at := task.created_at,
    updated_at := task.updated_at }

/-- Request body of `POST /tasks` (`TaskCreate`, `server.py` lines 68-77):
`description` defaults to the empty string, `priority` to `"medium"`,
`category` to `"General"`, `completed` to `false`; `due_date` is optional. -/
structure TaskCreateData where
  title : String
  description : Option String
  due_date : Option Nat
  priority : String
  category : Option String
  completed : Bool
deriving DecidableEq, Repr

/-- The document inserted by `create_task` (`server.py` lines 285-296): the
due date is stored in ISO string form, `category` falls back to `"General"`
when null or empty (Python `task_data.category or "General"`), and no
`is_overdue` key is stored. -/
def create_task_doc (task_id : String) (user_id : String) (now : Nat)
    (data : TaskCreateData) : TaskRec :=
  { id := task_id, title := data.title, description := data.description,
    due_date := data.due_date.map DueDateVal.isoStr,
    priority := some data.priority,
    category := some (match data.category with
      | some c => if c = "" then "General" else c
      | none => "General"),
    completed := some data.completed, is_overdue := none,
    user_id := user_id, created_at := now, updated_at := now }

/-- C1: the served `is_overdue` flag is true iff the due date is set, the
completed flag is false (absent counts as false), and the due day is strictly
before the current day; and the create path stores no `is_overdue` key — the
flag exists only on normalizer output. -/
theorem is_overdue_iff (today : Nat) (t : TaskRec)
    (task_id user_id : String) (now : Nat) (data : TaskCreateData) :
    ((prepare_task_for_response today t).is_overdue = some true ↔
      ((∃ dv, t.due_date = some dv ∧ dueDateDay dv < today) ∧
        t.completed.getD false = false)) ∧
    (create_task_doc task_id user_id now data).is_overdue = none := by
  constructor
  · cases h : t.due_date with
    | none => simp [prepare_task_for_response, h]
    | some dv =>
      cases hc : t.completed.getD false <;>
        simp [prepare_task_for_response, h, hc]
  · rfl

/-- Closed instance of C1: a task due on day 5, not completed, served on day
10, is reported overdue. -/
theorem is_overdue_iff_witness :
    (prepare_task_for_response 10
      { id := "t1", title := "a", description := some "",
        due_date := some (DueDateVal.isoStr 5), priority := some "medium",
        category := some "General", completed := some false,
        is_overdue := none, user_id := "u1", created_at := 0,
        updated_at := 0 }).is_overdue = some true :=
  (is_overdue_iff 10
      { id := "t1", title := "a", description := some "",
        due_date := some (DueDateVal.isoStr 5), priority := some "medium",
        category := some "General", completed := some false,
        is_overdue := none, user_id := "u1", created_at := 0, updated_at := 0 }
      "t1" "u1" 0
      { title := "a", description := some "", due_date := none,
        priority := "medium", category := none,
        completed := false }).1.mpr
    ⟨⟨DueDateVal.isoStr 5, rfl, by decide⟩, rfl⟩

/-- C5: the response normalizer is a pure function of (record, current day)
— it is a Lean function of exactly those arguments — and it is idempotent:
normalizing an already-normalized record (for the same current day) is the
identity. -/
theorem prepare_task_for_response_idempotent (today : Nat) (t : TaskRec) :
    prepare_task_for_response today (prepare_task_for_response today t) =
      prepare_task_for_response today t := by
  cases h : t.due_date with
  | none => simp [prepare_task_for_response, h]
  | some dv =>
    cases dv <;> simp [prepare_task_for_response, h, dueDateDay]

/-! ### Session tokens (`create_access_token`, `get_current_user`) -/

/-- Constant `ACCESS_TOKEN_EXPIRE_MINUTES` (`server.py` line 35). -/
def ACCESS_TOKEN_EXPIRE_MINUTES : Nat := 30

/-- The claims a signed token carries: the payload dict built by
`create_access_token` holds the caller-supplied data (for every route this is
`{"sub": user_id}`) plus the computed `exp` instant, in minutes. The HMAC
signature itself is external cryptography; we model only tokens whose
signature verifies, since `jwt.decode` rejects the rest before any claim is
examined. -/
structure TokenPayload where
  sub : Option String
  exp : Nat
deriving DecidableEq, Repr

/-- Embedding of `create_access_token` (`server.py` lines 134-142): expiry is
`now + expires_delta` when a delta is passed, else `now + 15` minutes. -/
def create_access_token (now : Nat) (sub : Option String)
    (expires_delta : Option Nat) : TokenPayload :=
  { sub := sub,
    exp := match expires_delta with
      | some delta => now + delta
      | none => now + 15 }

/-- Token issuance as every route performs it: `signup` (lines 223-226) and
`login` (lines 251-254) both pass
`expires_delta = timedelta(minutes=ACCESS_TOKEN_EXPIRE_MINUTES)`. -/
def route_issue_token (now : Nat) (user_id : String) : TokenPayload :=
  create_access_token now (some user_id) (some ACCESS_TOKEN_EXPIRE_MINUTES)

/-- Authentication failure kinds of `get_current_user`: `expired` is the 401
"Token expired" branch, `invalid` the generic credentials exception. -/
inductive AuthError where
  | expired
  | invalid
deriving DecidableEq, Repr

/-- Claim validation done by `get_current_user` (`server.py` lines 179-197) on
a signature-verified payload: PyJWT raises `ExpiredSignatureError` when the
current instant is at or past `exp` (its check is `exp <= now` with zero
leeway), and a missing `sub` claim raises the credentials exception. -/
def validate_token (now : Nat) (payload : TokenPayload) :
    Except AuthError String :=
  if payload.exp ≤ now then Except.error AuthError.expired
  else
    match payload.sub with
    | none => Except.error AuthError.invalid
    | some user_id => Except.ok user_id

/-- C3: a route-issued token encodes expiry exactly 30 minutes after
issuance; it validates successfully 29 minutes after issuance, is rejected as
expired 31 minutes after issuance, and is rejected whenever the current time
is at or past the encoded expiry. -/
theorem route_token_expiry (T : Nat) (user_id : String) :
    (route_issue_token T user_id).exp = T + 30 ∧
    validate_token (T + 29) (route_issue_token T user_id) =
      Except.ok user_id ∧
    validate_token (T + 31) (route_issue_token T user_id) =
      Except.error AuthError.expired ∧
    (∀ now, (route_issue_token T user_id).exp ≤ now →
      validate_token now (route_issue_token T user_id) =
        Except.error AuthError.expired) := by
  refine ⟨rfl, ?_, ?_, ?_⟩
  · simp [validate_token, route_issue_token, create_access_token,
      ACCESS_TOKEN_EXPIRE_MINUTES]
  · simp [validate_token, route_issue_token, create_access_token,
      ACCESS_TOKEN_EXPIRE_MINUTES]
  · intro now h
    simp only [validate_token, if_pos h]

/-- Closed instance of C3 at issuance time 0: valid at minute 29, expired at
minutes 31 and 30. -/
theorem route_token_expiry_witness :
    validate_token 29 (route_issue_token 0 "u1") = Except.ok "u1" ∧
    validate_token 31 (route_issue_token 0 "u1") =
      Except.error AuthError.expired ∧
    validate_token 30 (route_issue_token 0 "u1") =
      Except.error AuthError.expired :=
  ⟨(route_token_expiry 0 "u1").2.1, (route_token_expiry 0 "u1").2.2.1,
    (route_token_expiry 0 "u1").2.2.2 30 (by decide)⟩

/-- C9: called without an `expires_delta`, `create_access_token` encodes a
15-minute expiry, not the advertised 30-minute window; the 30-minute window
holds only because the route callers pass
`expires_delta = ACCESS_TOKEN_EXPIRE_MINUTES` explicitly. -/
theorem create_access_token_default_expiry (now : Nat) (sub : Option String)
    (user_id : String) :
    (create_access_token now sub none).exp = now + 15 ∧
    (route_issue_token now user_id).exp = now + 30 ∧
    (create_access_token now sub none).exp ≠
      (route_issue_token now user_id).exp := by
  refine ⟨rfl, rfl, ?_⟩
  simp [create_access_token, route_issue_token, ACCESS_TOKEN_EXPIRE_MINUTES]

/-- Closed instance of C9 at time 0: the default expiry is minute 15, the
route expiry minute 30, and they differ. -/
theorem create_access_token_default_expiry_witness :
    (create_access_token 0 (some "u1") none).exp = 0 + 15 ∧
    (route_issue_token 0 "u1").exp = 0 + 30 ∧
    (create_access_token 0 (some "u1") none).exp ≠
      (route_issue_token 0 "u1").exp :=
  create_access_token_default_expiry 0 (some "u1") "u1"

/-! ### Partial update (`TaskUpdate`, `update_task`) -/

/-- Request body of `PUT /tasks/{id}` (`TaskUpdate`, `server.py` lines
79-85): every field is `Optional[...] = None`, so a field that is absent from
the JSON body and a field sent as an explicit null both deserialize to
`None`; the model cannot distinguish them, and `none` here stands for
either. -/
structure TaskUpdateData where
  title : Option String
  description : Option String
  due_date : Option Nat
  priority : Option String
  category : Option String
  completed : Option Bool
deriving DecidableEq, Repr

/-- Whether `update_data` ends up non-empty in `update_task` (`server.py`
lines 471-483): a key is added exactly when the corresponding request field
is not `None`. -/
def update_has_fields (u : TaskUpdateData) : Bool :=
  u.title.isSome || u.description.isSome || u.due_date.isSome ||
    u.priority.isSome || u.category.isSome || u.completed.isSome

/-- Embedding of the store effect of `update_task` (`server.py` lines
470-490) on the found document: each supplied (non-`None`) field is written
via `$set`, the due date in ISO string form; `updated_at` is set to the
current instant exactly when `update_data` is non-empty, regardless of
whether any written value differs from the stored one. -/
def update_task (now : Nat) (t : TaskRec) (u : TaskUpdateData) : TaskRec :=
  if update_has_fields u then
    { id := t.id,
      title := u.title.getD t.title,
      description := match u.description with
        | some d => some d
        | none => t.description,
      due_date := match u.due_date with
        | some d => some (DueDateVal.isoStr d)
        | none => t.due_date,
      priority := match u.priority with
        | some p => some p
        | none => t.priority,
      category := match u.category with
        | some c => some c
        | none => t.category,
      completed := match u.completed with
        | some c => some c
        | none => t.completed,
      is_overdue := t.is_overdue,
      user_id := t.user_id, created_at := t.created_at, updated_at := now }
  else t

/-- The request that supplies no fields at all. -/
def emptyUpdate : TaskUpdateData :=
  { title := none, description := none, due_date := none, priority := none,
    category := none, completed := none }

/-- C4 as stated is false: an update that supplies one field whose value
equals the stored value still refreshes `updated_at`. The task below has
title `"a"` and `updated_at = 5`; updating it at instant 9 with
`title = "a"` (all other fields absent) leaves every stored field equal but
moves `updated_at` to 9. -/
theorem update_task_refreshes_on_equal_value :
    (update_task 9
        { id := "t1", title := "a", description := some "",
          due_date := none, priority := some "medium",
          category := some "General", completed := some false,
          is_overdue := none, user_id := "u1", created_at := 1,
          updated_at := 5 }
        { emptyUpdate with title := some "a" }).title = "a" ∧
    (update_task 9
        { id := "t1", title := "a", description := some "",
          due_date := none, priority := some "medium",
          category := some "General", completed := some false,
          is_overdue := none, user_id := "u1", created_at := 1,
          updated_at := 5 }
        { emptyUpdate with title := some "a" }).updated_at ≠ 5 := by
  constructor
  · rfl
  · decide

/-- C4 amended: an update supplying zero fields leaves the stored record
entirely unchanged (in particular `updated_at`), and an update supplying at
least one field sets `updated_at` to the current instant — whether or not any
supplied value differs from the stored one. -/
theorem update_task_updated_at (now : Nat) (t : TaskRec)
    (u : TaskUpdateData) :
    (update_has_fields u = false → update_task now t u = t) ∧
    (update_has_fields u = true → (update_task now t u).updated_at = now) :=
  by
  constructor
  · intro h
    simp [update_task, h]
  · intro h
    simp [update_task, h]

/-- Closed instance of the amended C4: the empty update leaves a record
unchanged, and a one-field update stamps `updated_at` with the current
instant. -/
theorem update_task_updated_at_witness :
    (update_task 9
        { id := "t1", title := "a", description := some "",
          due_date := none, priority := some "medium",
          category := some "General", completed := some false,
          is_overdue := none, user_id := "u1", created_at := 1,
          updated_at := 5 }
        emptyUpdate) =
      { id := "t1", title := "a", description := some "",
        due_date := none, priority := some "medium",
        category := some "General", completed := some false,
        is_overdue := none, user_id := "u1", created_at := 1,
        updated_at := 5 } ∧
    (update_task 9
        { id := "t1", title := "a", description := some "",
          due_date := none, priority := some "medium",
          category := some "General", completed := some false,
          is_overdue := none, user_id := "u1", created_at := 1,
          updated_at := 5 }
        { emptyUpdate with completed := some true }).updated_at = 9 :=
  ⟨(update_task_updated_at 9
      { id := "t1", title := "a", description := some "",
        due_date := none, priority := some "medium",
        category := some "General", completed := some false,
        is_overdue := none, user_id := "u1", created_at := 1,
        updated_at := 5 } emptyUpdate).1 (by decide),
    (update_task_updated_at 9
      { id := "t1", title := "a", description := some "",
        due_date := none, priority := some "medium",
        category := some "General", completed := some false,
        is_overdue := none, user_id := "u1", created_at := 1,
        updated_at := 5 } { emptyUpdate with completed := some true }).2
      (by decide)⟩

/-- C10: a field that is absent or null in the request leaves the stored
field unchanged, and no update can clear a set due date back to absent —
pydantic folds "absent" and "explicit null" into the same `None`, which
`update_task` skips. -/
theorem update_task_absent_fields_unchanged (now : Nat) (t : TaskRec)
    (u : TaskUpdateData) :
    (u.title = none → (update_task now t u).title = t.title) ∧
    (u.description = none →
      (update_task now t u).description = t.description) ∧
    (u.due_date = none → (update_task now t u).due_date = t.due_date) ∧
    (u.priority = none → (update_task now t u).priority = t.priority) ∧
    (u.category = none → (update_task now t u).category = t.category) ∧
    (u.completed = none → (update_task now t u).completed = t.completed) ∧
    (t.due_date.isSome → (update_task now t u).due_date.isSome) := by
  by_cases h : update_has_fields u = true
  · refine ⟨?_, ?_, ?_, ?_, ?_, ?_, ?_⟩ <;> intro hf <;>
      cases hd : u.due_date <;>
      simp [update_task, h, hf, hd]
  · rw [Bool.not_eq_true] at h
    have he : update_task now t u = t := by simp [update_task, h]
    rw [he]
    exact ⟨fun _ => rfl, fun _ => rfl, fun _ => rfl, fun _ => rfl,
      fun _ => rfl, fun _ => rfl, fun h => h⟩

/-- Closed instance of C10: an update that supplies only `completed` leaves
the set due date in place (still set, same day). -/
theorem update_task_absent_fields_unchanged_witness :
    (update_task 9
        { id := "t1", title := "a", description := some "",
          due_date := some (DueDateVal.isoStr 7), priority := some "medium",
          category := some "General", completed := some false,
          is_overdue := none, user_id := "u1", created_at := 1,
          updated_at := 5 }
        { emptyUpdate with completed := some true }).due_date =
      some (DueDateVal.isoStr 7) :=
  (update_task_absent_fields_unchanged 9
      { id := "t1", title := "a", description := some "",
        due_date := some (DueDateVal.isoStr 7), priority := some "medium",
        category := some "General", completed := some false,
        is_overdue := none, user_id := "u1", created_at := 1,
        updated_at := 5 }
      { emptyUpdate with completed := some true }).2.2.1 rfl

/-! ### Signup (`signup`, `server.py` lines 201-239) -/

/-- A document of the `users` collection as inserted by `signup`. The
`password` field holds the bcrypt hash; bcrypt itself (random salt, external
library) is modelled by passing the hash in as an input. -/
structure UserDoc where
  id : String
  email : String
  name : String
  password : String
  created_at : Nat
deriving DecidableEq, Repr

/-- The duplicate-email failure of `signup`: HTTP 400 "Email already
registered" — the `Conflict` kind of the error taxonomy. -/
inductive SignupError where
  | conflict
deriving DecidableEq, Repr

/-- `db.users.find_one({"email": e})`: the first stored user with that exact
email, if any. -/
def find_user_by_email (users : List UserDoc) (e : String) : Option UserDoc :=
  users.find? (fun u => u.email == e)

/-- Embedding of `signup` (`server.py` lines 201-239): if a user with the
requested email already exists, fail with the duplicate-email error and
leave the store untouched; otherwise insert the new user document and issue a
token for the fresh id with the 30-minute delta. The generated uuid, hashed
password and current instant are explicit inputs (external
uuid4/bcrypt/clock). Returns the outcome paired with the resulting user
store. -/
def signup (users : List UserDoc) (new_id : String) (now : Nat)
    (email name hashed_password : String) :
    Except SignupError (TokenPayload × UserDoc) × List UserDoc :=
  match find_user_by_email users email with
  | some _ => (Except.error SignupError.conflict, users)
  | none =>
    let user_doc : UserDoc :=
      { id := new_id, email := email, name := name,
        password := hashed_password, created_at := now }
    (Except.ok (route_issue_token now new_id, user_doc),
      users ++ [user_doc])

/-- C8: signup with an email that is already registered fails with the
duplicate-email Conflict error and leaves the user store unchanged; in
particular, after a successful signup for an email, a second signup with the
same email fails with Conflict and inserts nothing. -/
theorem signup_duplicate_email_conflict (users : List UserDoc)
    (id1 id2 : String) (now1 now2 : Nat)
    (email name1 name2 hash1 hash2 : String)
    (hfree : find_user_by_email users email = none) :
    (signup ((signup users id1 now1 email name1 hash1).2) id2 now2 email
        name2 hash2).1 = Except.error SignupError.conflict ∧
    (signup ((signup users id1 now1 email name1 hash1).2) id2 now2 email
        name2 hash2).2 = (signup users id1 now1 email name1 hash1).2 := by
  have h1 : (signup users id1 now1 email name1 hash1).2 =
      users ++ [{ id := id1, email := email, name := name1,
                  password := hash1, created_at := now1 }] := by
    simp [signup, hfree]
  have h2 : find_user_by_email
      ((signup users id1 now1 email name1 hash1).2) email =
      some { id := id1, email := email, name := name1, password := hash1,
             created_at := now1 } := by
    rw [h1]
    unfold find_user_by_email at hfree ⊢
    rw [List.find?_append, hfree]
    simp
  generalize hdb : (signup users id1 now1 email name1 hash1).2 = db1 at h2 ⊢
  constructor <;> simp [signup, h2]

/-- Closed instance of C8: signup("a@x.com") into an empty store succeeds,
and a second signup("a@x.com") fails with Conflict leaving the store as the
first signup left it. -/
theorem signup_duplicate_email_conflict_witness :
    (signup ((signup [] "u1" 0 "a@x.com" "A" "h1").2) "u2" 1 "a@x.com" "B"
        "h2").1 = Except.error SignupError.conflict ∧
    (signup ((signup [] "u1" 0 "a@x.com" "A" "h1").2) "u2" 1 "a@x.com" "B"
        "h2").2 = (signup [] "u1" 0 "a@x.com" "A" "h1").2 :=
  signup_duplicate_email_conflict [] "u1" "u2" 0 1 "a@x.com" "A" "B" "h1"
    "h2" rfl

/-! ### Aggregate statistics (`get_task_stats`, `server.py` lines 371-430) -/

/-- One entry of the `categories` list in the stats response. -/
structure CategoryEntry where
  name : String
  count : Nat
  color : String
deriving DecidableEq, Repr

/-- The stats response shape (`TaskStats`, `server.py` lines 100-106). -/
structure TaskStatsRec where
  total : Nat
  completed : Nat
  pending : Nat
  overdue : Nat
  high_priority : Nat
  categories : List CategoryEntry
deriving DecidableEq, Repr

/-- The fixed category-color lookup (`server.py` lines 406-413); unknown
categories fall back to the same gray used for General. -/
def category_color (name : String) : String :=
  if name = "General" then "#6B7280"
  else if name = "Work" then "#DC2626"
  else if name = "Personal" then "#059669"
  else if name = "Health" then "#7C3AED"
  else if name = "Learning" then "#EA580C"
  else if name = "Shopping" then "#0891B2"
  else "#6B7280"

/-- One step of the category tally: `categories[category] += 1` on a Python
dict (insertion-ordered), modelled as an association list. -/
def bump_category (name : String) :
    List (String × Nat) → List (String × Nat)
  | [] => [(name, 1)]
  | (n, k) :: rest =>
    if n = name then (n, k + 1) :: rest
    else (n, k) :: bump_category name rest

/-- Whether a task counts as overdue inside `get_task_stats` (lines
390-396) — the same rule as in `prepare_task_for_response`. -/
def stats_task_overdue (today : Nat) (t : TaskRec) : Bool :=
  match t.due_date with
  | none => false
  | some dv => !(t.completed.getD false) && decide (dueDateDay dv < today)

/-- Embedding of `get_task_stats` (`server.py` lines 371-430) over the list
of the tasks owned by the current user, parametrised by the current
calendar day. -/
def get_task_stats (today : Nat) (tasks : List TaskRec) : TaskStatsRec :=
  let total := tasks.length
  let completed := (tasks.filter (fun t => t.completed.getD false)).length
  let pending := total - completed
  let overdue := (tasks.filter (fun t => stats_task_overdue today t)).length
  let high_priority :=
    (tasks.filter (fun t => t.priority.getD "" == "high")).length
  let categories := tasks.foldl
    (fun acc t => bump_category (t.category.getD "General") acc) []
  { total := total, completed := completed, pending := pending,
    overdue := overdue, high_priority := high_priority,
    categories := categories.map
      (fun p => { name := p.1, count := p.2,
                  color := category_color p.1 }) }

theorem bump_category_sum (name : String) (acc : List (String × Nat)) :
    ((bump_category name acc).map Prod.snd).sum =
      (acc.map Prod.snd).sum + 1 := by
  induction acc with
  | nil => simp [bump_category]
  | cons p rest ih =>
    obtain ⟨n, k⟩ := p
    by_cases h : n = name <;> simp [bump_category, h, ih] <;> omega

theorem category_fold_sum (tasks : List TaskRec)
    (acc : List (String × Nat)) :
    ((tasks.foldl
        (fun a t => bump_category (t.category.getD "General") a) acc).map
      Prod.snd).sum = (acc.map Prod.snd).sum + tasks.length := by
  induction tasks generalizing acc with
  | nil => simp
  | cons t rest ih =>
    simp only [List.foldl_cons, List.length_cons]
    rw [ih, bump_category_sum]
    omega

/-- C7: in the stats result, `completed + pending = total`, and the
per-category counts sum to `total`. -/
theorem get_task_stats_invariants (today : Nat) (tasks : List TaskRec) :
    (get_task_stats today tasks).completed +
        (get_task_stats today tasks).pending =
      (get_task_stats today tasks).total ∧
    ((get_task_stats today tasks).categories.map
        CategoryEntry.count).sum = (get_task_stats today tasks).total := by
  constructor
  · have hle : (tasks.filter (fun t => t.completed.getD false)).length ≤
        tasks.length := List.length_filter_le _ _
    simp only [get_task_stats]
    omega
  · simp only [get_task_stats]
    have h := category_fold_sum tasks []
    simp only [List.map_map]
    have hcomp : (CategoryEntry.count ∘ fun p : String × Nat =>
        ({ name := p.1, count := p.2,
           color := category_color p.1 } : CategoryEntry)) = Prod.snd := by
      funext p
      rfl
    rw [hcomp, h]
    simp

/-! ### Priority sorting (`get_tasks`, `server.py` lines 333-361) -/

/-- The synthetic ordinal added by the `$addFields`/`$switch` stage of the
priority pipeline (lines 344-355): high→3, medium→2, low→1, anything else
(including a missing field) →0. -/
def priority_order (p : Option String) : Nat :=
  if p = some "high" then 3
  else if p = some "medium" then 2
  else if p = some "low" then 1
  else 0

/-- `sort_direction = 1 if sort_order == "asc" else -1` (line 334). -/
def sort_direction (sort_order : String) : Int :=
  if sort_order = "asc" then 1 else -1

/-- The ordering realised by the pipeline stage
`$sort: priority_order: sort_direction, created_at: -1` (line 357): primary
key is the synthetic ordinal in the requested direction, ties are broken by
`created_at` descending regardless of the requested direction. `a` may be
placed before `b` exactly when this relation holds. -/
def priority_sort_le (dir : Int) (a b : TaskRec) : Prop :=
  if priority_order a.priority = priority_order b.priority then
    b.created_at ≤ a.created_at
  else if dir = 1 then
    priority_order a.priority ≤ priority_order b.priority
  else
    priority_order b.priority ≤ priority_order a.priority

instance (dir : Int) : DecidableRel (priority_sort_le dir) := by
  intro a b
  unfold priority_sort_le
  infer_instance

instance (dir : Int) : IsTotal TaskRec (priority_sort_le dir) := by
  constructor
  intro a b
  unfold priority_sort_le
  split_ifs <;> omega

instance (dir : Int) : IsTrans TaskRec (priority_sort_le dir) := by
  constructor
  intro a b c hab hbc
  unfold priority_sort_le at hab hbc ⊢
  split_ifs at hab hbc ⊢ <;> omega

/-- The task list returned by `get_tasks` with `sort_by = "priority"`: the
matching documents arranged according to the compound sort key of the
aggregation pipeline (the store sort is modelled by insertion sort over the
pipeline ordering). -/
def get_tasks_priority (sort_order : String) (tasks : List TaskRec) :
    List TaskRec :=
  List.insertionSort (priority_sort_le (sort_direction sort_order)) tasks

/-- A task with the given priority, created at instant `c`, used to realise
the sorting scenario of the claim. -/
def sampleTask (pr : String) (c : Nat) : TaskRec :=
  { id := toString c, title := "t", description := some "",
    due_date := none, priority := some pr, category := some "General",
    completed := some false, is_overdue := none, user_id := "u1",
    created_at := c, updated_at := c }

/-- C2 as stated is false: with tasks of priority [low, high, medium] created
at instants 1 < 2 < 3, `sort_by=priority` with `sort_order=asc` returns them
in order [low, medium, high] — the requested direction is applied to the
priority ordinal — not in the claimed order [high, medium, low]. -/
theorem get_tasks_priority_asc_counterexample :
    (get_tasks_priority "asc"
        [sampleTask "low" 1, sampleTask "high" 2,
          sampleTask "medium" 3]).map (fun t => t.priority) =
      [some "low", some "medium", some "high"] ∧
    ¬((get_tasks_priority "asc"
        [sampleTask "low" 1, sampleTask "high" 2,
          sampleTask "medium" 3]).map (fun t => t.priority) =
      [some "high", some "medium", some "low"]) := by
  constructor
  · rfl
  · decide

/-- C2 amended: priority sorting uses the ordinal high→3, medium→2, low→1,
else→0 as primary key in the requested direction — descending gives high
before medium before low, ascending the reverse — with ties among equal
ordinals broken by `created_at` descending regardless of direction; the
output is a permutation of the input arranged according to that compound
ordering, and the asc scenario of the claim returns [low, medium, high]
while desc returns [high, medium, low]. -/
theorem get_tasks_priority_sorted (sort_order : String)
    (tasks : List TaskRec) :
    (get_tasks_priority sort_order tasks).Perm tasks ∧
    List.Sorted (priority_sort_le (sort_direction sort_order))
      (get_tasks_priority sort_order tasks) ∧
    (get_tasks_priority "desc"
        [sampleTask "low" 1, sampleTask "high" 2,
          sampleTask "medium" 3]).map (fun t => t.priority) =
      [some "high", some "medium", some "low"] ∧
    (get_tasks_priority "asc"
        [sampleTask "low" 1, sampleTask "high" 2,
          sampleTask "medium" 3]).map (fun t => t.priority) =
      [some "low", some "medium", some "high"] :=
  ⟨List.perm_insertionSort _ tasks, List.sorted_insertionSort _ tasks,
    rfl, rfl⟩

/-! ### Search filtering (`get_tasks`, `server.py` lines 326-331)

The `search` parameter is passed verbatim — unescaped — as the pattern of a
`$regex` / `$options: "i"` condition on `title`, `description` and
`category`. The store evaluates it as a case-insensitive, unanchored
regular expression. The model below covers the fragment of the pattern
language made of literal characters and the `.` wildcard, which already
separates regex matching from substring matching. -/

/-- One pattern character against one subject character under the `i`
option: the metacharacter `.` matches any character, a literal character
matches up to case. -/
def regex_char_matches (pc c : Char) : Bool :=
  pc == '.' || pc.toLower == c.toLower

/-- Whether the pattern matches a prefix of the subject. -/
def regex_match_here : List Char → List Char → Bool
  | [], _ => true
  | _ :: _, [] => false
  | pc :: ps, c :: cs => regex_char_matches pc c && regex_match_here ps cs

/-- Unanchored regex match: the pattern matches at some position of the
subject. -/
def regex_search (p : List Char) : List Char → Bool
  | [] => regex_match_here p []
  | c :: cs => regex_match_here p (c :: cs) || regex_search p cs

/-- The `$or` filter built by `get_tasks` when `search` is supplied (lines
326-331): the pattern is matched against `title` OR `description` OR
`category`; a missing/null field matches no pattern. -/
def task_matches_search (search : List Char) (t : TaskRec) : Bool :=
  regex_search search t.title.toList ||
    (match t.description with
     | some d => regex_search search d.toList
     | none => false) ||
    (match t.category with
     | some c => regex_search search c.toList
     | none => false)

/-- Case-insensitive prefix test between plain strings. -/
def ci_prefix : List Char → List Char → Bool
  | [], _ => true
  | _ :: _, [] => false
  | pc :: ps, c :: cs => pc.toLower == c.toLower && ci_prefix ps cs

/-- Case-insensitive substring containment between plain strings. -/
def ci_substring (p : List Char) : List Char → Bool
  | [] => ci_prefix p []
  | c :: cs => ci_prefix p (c :: cs) || ci_substring p cs

/-- The matching predicate in the words of the claim (for refinement
comparison): the search string is a case-insensitive substring of the title,
of the description, or of the category. -/
def spec_matches_search (search : List Char) (t : TaskRec) : Bool :=
  ci_substring search t.title.toList ||
    (match t.description with
     | some d => ci_substring search d.toList
     | none => false) ||
    (match t.category with
     | some c => ci_substring search c.toList
     | none => false)

/-- C6 as stated is false: the search string is interpreted as a regular
expression, not quoted as a literal. The search string `"a.c"` matches a
task titled `"abc"` (the `.` matches `b`), yet `"a.c"` is not a
case-insensitive substring of the title, the description or the category. -/
theorem task_matches_search_counterexample :
    task_matches_search "a.c".toList
        { id := "t1", title := "abc", description := some "",
          due_date := none, priority := some "medium",
          category := some "General", completed := some false,
          is_overdue := none, user_id := "u1", created_at := 0,
          updated_at := 0 } = true ∧
    spec_matches_search "a.c".toList
        { id := "t1", title := "abc", description := some "",
          due_date := none, priority := some "medium",
          category := some "General", completed := some false,
          is_overdue := none, user_id := "u1", created_at := 0,
          updated_at := 0 } = false := by
  constructor <;> decide

theorem regex_match_here_eq_ci_prefix (p : List Char)
    (h : ('.' : Char) ∉ p) :
    ∀ s, regex_match_here p s = ci_prefix p s := by
  induction p with
  | nil => intro s; rfl
  | cons pc ps ih =>
    intro s
    have hpc : ¬pc = ('.' : Char) := fun e => h (e ▸ List.mem_cons_self pc ps)
    have hps : ('.' : Char) ∉ ps := fun m => h (List.mem_cons_of_mem pc m)
    cases s with
    | nil => rfl
    | cons c cs =>
      have hb : (pc == ('.' : Char)) = false := by
        simpa using hpc
      simp only [regex_match_here, ci_prefix, regex_char_matches,
        hb, Bool.false_or, ih hps]

theorem regex_search_eq_ci_substring (p : List Char)
    (h : ('.' : Char) ∉ p) :
    ∀ s, regex_search p s = ci_substring p s := by
  intro s
  induction s with
  | nil => simp only [regex_search, ci_substring,
      regex_match_here_eq_ci_prefix p h]
  | cons c cs ih => simp only [regex_search, ci_substring,
      regex_match_here_eq_ci_prefix p h, ih]

/-- C6 amended: the search string is evaluated as a case-insensitive
unanchored regular expression against title OR description OR category;
when it contains no regex metacharacter (here: no `.`, the wildcard of the
modelled fragment), this coincides with the claimed case-insensitive
substring test on the three fields. -/
theorem task_matches_search_eq_substring_of_meta_free (search : List Char)
    (t : TaskRec) (h : ('.' : Char) ∉ search) :
    task_matches_search search t = spec_matches_search search t := by
  unfold task_matches_search spec_matches_search
  rw [regex_search_eq_ci_substring search h]
  cases t.description <;> cases t.category <;>
    simp only [regex_search_eq_ci_substring search h]

/-- Closed instance of the amended C6: the metacharacter-free search
`"bc"` matches the title `"ABCD"` exactly as the substring test does. -/
theorem task_matches_search_eq_substring_witness :
    (('.' : Char) ∉ "bc".toList) ∧
    task_matches_search "bc".toList
        { id := "t1", title := "ABCD", description := some "",
          due_date := none, priority := some "medium",
          category := some "General", completed := some false,
          is_overdue := none, user_id := "u1", created_at := 0,
          updated_at := 0 } =
      spec_matches_search "bc".toList
        { id := "t1", title := "ABCD", description := some "",
          due_date := none, priority := some "medium",
          category := some "General", completed := some false,
          is_overdue := none, user_id := "u1", created_at := 0,
          updated_at := 0 } :=
  ⟨by decide,
    task_matches_search_eq_substring_of_meta_free "bc".toList
      { id := "t1", title := "ABCD", description := some "",
        due_date := none, priority := some "medium",
        category := some "General", completed := some false,
        is_overdue := none, user_id := "u1", created_at := 0,
        updated_at := 0 } (by decide)⟩

end TaskFlow
